import Mathlib

/-!
# Verification of the content_creator pipeline orchestration layer

Shallow embedding of the pipeline orchestration and generation-task layer of
the `script_to_movie` backend: the workflow service, the phase-1 script
analysis and trailer-scene selection, the Kling generation client
(submit / poll / timeout / fallback), the per-scene batch generation agent,
and the media assembly paths.

External effects (database commits, HTTP calls, LLM calls, ffmpeg, clocks)
are made explicit: database state is passed as values, and the outcome of
each external call is a parameter of the embedded function, so every
definition is an executable Lean function mirroring the control flow of the
corresponding Python function.
-/

deriving instance DecidableEq for Except

namespace ContentCreator

/-- Project row (`app/models/project.py`): the fields read and written by the
workflow layer.  `status`, `progress` and `errorMessage` are the fields the
orchestrator owns. -/
structure Project where
  id : Nat
  title : String
  scriptContent : String
  status : String
  progress : Int
  errorMessage : Option String
  deriving Repr, DecidableEq

/-- Scene row (`app/models/scene.py`): the fields used by phase 1 and the
assembly paths.  `order` drives assembly ordering; `sceneNumber` is the
number assigned by script analysis. -/
structure Scene where
  id : Nat
  projectId : Nat
  sceneNumber : Int
  title : String
  description : String
  setting : String
  characters : List String
  duration : Option Int
  dialogue : Option String
  order : Int
  deriving Repr, DecidableEq

/-! ## Trailer-scene selection
(`app/phases/script_to_trailer/agents/trailer_selection.py`, lines 19-68)

`select_trailer_scenes` receives the project scenes ordered by
`sceneNumber` (the query orders by `Scene.sceneNumber`) and the
`selectedSceneNumbers` list decoded from the narrative service.  It builds
`scenes_by_number = {s.sceneNumber: s for s in scenes}` (a Python dict
comprehension, so the LAST scene with a given number wins), then

* first loop: `for i, scene_num in enumerate(selected_numbers, start=1)` -
  when `scene_num` is a key of the dict, that scene gets `order := i` and is
  appended to `selected_scenes`;
* second loop: every scene whose `sceneNumber` is not in
  `selected_numbers` gets `order := next_order` counting up from
  `len(selected_scenes) + 1`.

Scene identity is positional here: mutating a scene object in the dict
mutates the same object held in the `scenes` list. -/

/-- Index of the scene that the dict `scenes_by_number` maps `n` to: the
last position in the list whose `sceneNumber` equals `n`. -/
def lastIdxWithNumber : List Scene → Int → Option Nat
  | [], _ => none
  | s :: rest, n =>
    match lastIdxWithNumber rest n with
    | some j => some (j + 1)
    | none => if s.sceneNumber = n then some 0 else none

/-- Overwrite the `order` field of the scene at position `j`. -/
def setOrderAt : List Scene → Nat → Int → List Scene
  | [], _, _ => []
  | s :: rest, 0, o => { s with order := o } :: rest
  | s :: rest, j + 1, o => s :: setOrderAt rest j o

/-- First reorder loop of `select_trailer_scenes`: `i` is the 1-based
position in `selected_numbers` (Python `enumerate(..., start=1)`), `count`
the number of scenes appended to `selected_scenes` so far.  Returns the
updated scene list and the final `len(selected_scenes)`. -/
def selectionPass1 : List Scene → List Int → Int → Nat → List Scene × Nat
  | scenes, [], _, count => (scenes, count)
  | scenes, n :: rest, i, count =>
    match lastIdxWithNumber scenes n with
    | some j => selectionPass1 (setOrderAt scenes j i) rest (i + 1) (count + 1)
    | none => selectionPass1 scenes rest (i + 1) count

/-- Second reorder loop of `select_trailer_scenes`: every scene whose
`sceneNumber` is not in `selected_numbers` gets the next order value,
starting from `next`. -/
def selectionPass2 (selectedNumbers : List Int) : List Scene → Int → List Scene
  | [], _ => []
  | s :: rest, next =>
    if s.sceneNumber ∈ selectedNumbers then
      s :: selectionPass2 selectedNumbers rest next
    else
      { s with order := next } :: selectionPass2 selectedNumbers rest (next + 1)

/-- `select_trailer_scenes` (lines 45-62): the net effect on the scene list
of the two reorder loops.  `next_order` starts at `len(selected_scenes) + 1`. -/
def select_trailer_scenes (scenes : List Scene) (selectedNumbers : List Int) :
    List Scene :=
  let p := selectionPass1 scenes selectedNumbers 1 0
  selectionPass2 selectedNumbers p.1 (p.2 + 1)

/-- Scene record created by step 7 of `analyze_script`
(`app/phases/script_to_trailer/service.py`, lines 152-165):
`order := sceneNumber - 1`. -/
def sceneFromAnalysis (projectId : Nat) (sceneNumber : Int) (title description setting : String)
    (characters : List String) (duration : Int) : Scene :=
  { id := 0
    projectId := projectId
    sceneNumber := sceneNumber
    title := title
    description := description
    setting := setting
    characters := characters
    duration := some duration
    dialogue := none
    order := sceneNumber - 1 }

/-- Minimal concrete scene used in evaluations: number `n`, order `o`. -/
def mkScene (n o : Int) : Scene :=
  { id := n.toNat
    projectId := 1
    sceneNumber := n
    title := ""
    description := ""
    setting := ""
    characters := []
    duration := some 10
    dialogue := none
    order := o }

/-- The front-loading property claimed for trailer selection: every scene
whose number was selected has a strictly smaller `order` than every scene
whose number was not selected. -/
def frontLoaded (result : List Scene) (selectedNumbers : List Int) : Prop :=
  ∀ s ∈ result, ∀ t ∈ result,
    s.sceneNumber ∈ selectedNumbers → t.sceneNumber ∉ selectedNumbers →
      s.order < t.order

instance (result : List Scene) (sel : List Int) :
    Decidable (frontLoaded result sel) := by
  unfold frontLoaded; infer_instance

/-! ## Workflow service (`app/workflow/service.py`) -/

/-- `select(Project).where(Project.id == project_id)` + `scalar_one_or_none()`
on a database state; `id` is the primary key, so at most one row matches. -/
def findProject (db : List Project) (pid : Nat) : Option Project :=
  db.find? (fun p => p.id == pid)

/-- The `except` block of `_run_pipeline` (lines 37-44): re-query the
project and, when it exists, set `status := "failed"` and
`errorMessage := str(e)`.  `progress` is left untouched there. -/
def setFailed (db : List Project) (pid : Nat) (msg : String) : List Project :=
  db.map (fun p =>
    if p.id == pid then { p with status := "failed", errorMessage := some msg } else p)

/-- `_run_pipeline` (lines 15-44) around its body: the body (phase 1 then
phase 3) either finishes with a new database state, or raises with a message
and the database state at the moment of the raise.  The surrounding
`try`/`except` catches every exception, records the failure via `setFailed`,
and then RETURNS NORMALLY: the function is a detached background task and
its `except` block has no `raise`, so the result component is always
`Except.ok ()`. -/
def run_pipeline_task (pid : Nat)
    (body : Except (String × List Project) (List Project)) :
    List Project × Except String Unit :=
  match body with
  | .ok db1 => (db1, .ok ())
  | .error (msg, db1) => (setFailed db1 pid msg, .ok ())

/-- The `except` block shared by the phase services `analyze_script`
(`script_to_trailer/service.py`, lines 188-194) and `generate_trailer`
(`storyboard_to_movie/service.py`, lines 236-242): set
`status := "failed"`, `progress := 0`, `errorMessage := str(e)`, commit,
then re-`raise` the same exception. -/
def phase_failure_handler (p : Project) (msg : String) :
    Project × Except String Unit :=
  ({ p with status := "failed", progress := 0, errorMessage := some msg },
    .error msg)

/-- `WorkflowStatusResponse` (`app/schemas/video.py`). -/
structure WorkflowStatusResponse where
  projectId : Nat
  status : String
  progress : Int
  currentStep : Option String
  error : Option String
  deriving Repr, DecidableEq

/-- `get_workflow_status` (`app/workflow/service.py`, lines 59-75): pure
read of the project row.  The database state is returned unchanged to make
the absence of writes explicit. -/
def get_workflow_status (db : List Project) (pid : Nat) :
    List Project × WorkflowStatusResponse :=
  match findProject db pid with
  | none => (db, ⟨pid, "not_found", 0, none, some "Project not found"⟩)
  | some p => (db, ⟨p.id, p.status, p.progress, none, p.errorMessage⟩)

/-! ## Project status traces

The statuses actually written by the live pipeline
(`_run_pipeline` → `analyze_script` → `generate_trailer`):

* `analyze_script` writes `"parsing"`, then `"parsed"` on success or
  `"failed"` (its handler) on failure;
* `generate_trailer` first checks
  `status in ("parsed", "completed", "failed")` and raises `ValueError`
  before any write otherwise; then writes `"generating_videos"`, then
  `"completed"` on success or `"failed"` on failure;
* the `_run_pipeline` handler writes `"failed"` once more for any exception
  reaching it.

`run_pipeline_statuses current phase1ok phase3ok` is the list of status
values written, in order, for a project currently in status `current`,
where `phase1ok` / `phase3ok` say whether the LLM/vendor work of each phase
succeeds.  Phase 1 is skipped unless
`current in ("draft", "parsing", "failed")` (lines 27-30). -/
def run_pipeline_statuses (current : String) (phase1ok phase3ok : Bool) :
    List String :=
  if current == "draft" || current == "parsing" || current == "failed" then
    if phase1ok then
      ["parsing", "parsed"] ++
        (if phase3ok then ["generating_videos", "completed"]
         else ["generating_videos", "failed", "failed"])
    else ["parsing", "failed", "failed"]
  else
    if current == "parsed" || current == "completed" then
      if phase3ok then ["generating_videos", "completed"]
      else ["generating_videos", "failed", "failed"]
    else ["failed"]

/-- The transition relation claimed by the specification phase graph,
with the claimed names mapped onto the names the code uses where they
correspond (`analyzing` is written `parsing` by the code, and
`generating_clips` is written `generating_videos`); `failed` is reachable
from every non-terminal state. -/
def claimedEdge (a b : String) : Bool :=
  (a == "draft" && b == "parsing") ||
  (a == "parsing" && b == "parsed") ||
  (a == "parsed" && b == "extracting_frames") ||
  (a == "extracting_frames" && b == "prompting") ||
  (a == "prompting" && b == "generating_videos") ||
  (a == "generating_videos" && b == "assembling") ||
  (a == "assembling" && b == "completed") ||
  (b == "failed" && !(a == "completed") && !(a == "failed"))

/-- The transition relation the code actually realises. -/
def pipelineEdge (a b : String) : Bool :=
  ((a == "draft" || a == "parsing" || a == "failed") && b == "parsing") ||
  (a == "parsing" && b == "parsed") ||
  ((a == "parsed" || a == "completed") && b == "generating_videos") ||
  (a == "generating_videos" && b == "completed") ||
  (b == "failed")

/-- Every consecutive pair of `a :: trace` satisfies `edge`. -/
def chainOk (edge : String → String → Bool) : String → List String → Bool
  | _, [] => true
  | a, b :: rest => edge a b && chainOk edge b rest

/-! ## Generation task client
(`app/phases/storyboard_to_movie/video_generator.py`)

External HTTP outcomes are parameters: `SubmitOutcome` is what the
submission POST produced, and `poll : Nat → PollOutcome` is what the n-th
poll GET produced.  The fresh `uuid4().hex[:8]` artifact-key suffix is the
`uuidHex` parameter. -/

/-- The two Kling credential settings read via `get_settings()`; Python
truthiness makes the empty string count as absent. -/
structure Settings where
  klingApiKey : String
  klingSecretKey : String
  deriving Repr, DecidableEq

/-- `VideoClip` dataclass (lines 31-35). -/
structure VideoClip where
  videoUrl : String
  videoKey : String
  duration : Int
  deriving Repr, DecidableEq

def MOCK_VIDEO_URL : String :=
  "https://sample-videos.com/video321/mp4/720/big_buck_bunny_720p_1mb.mp4"

def MAX_POLL_ATTEMPTS : Nat := 360

def POLL_INTERVAL_SECONDS : Nat := 10

/-- The `videoKey` format used for generated clips (line 123). -/
def videoKeyFor (projectId sceneId : Nat) (uuidHex : String) : String :=
  "projects/" ++ toString projectId ++ "/videos/scene-" ++ toString sceneId ++
    "-" ++ uuidHex ++ ".mp4"

/-- `_mock_video_clip` (lines 85-98): deterministic placeholder clip with
the public sample video URL and a fresh artifact key. -/
def mock_video_clip (duration : Int) (projectId sceneId : Nat) (uuidHex : String) :
    VideoClip :=
  { videoUrl := MOCK_VIDEO_URL
    videoKey := videoKeyFor projectId sceneId uuidHex
    duration := if duration = 5 ∨ duration = 10 then duration else 5 }

/-- Outcome of one poll GET of the Kling task (lines 225-238):
either the HTTP layer raised (`raise_for_status`, connection or timeout
errors — all caught by the outer handlers), or a response body carrying
`task_status`, the result video URL and `task_status_msg`. -/
inductive PollOutcome where
  | httpError
  | netError
  | result (taskStatus videoUrl statusMsg : String)
  deriving Repr, DecidableEq

/-- Outcome of the submission POST (lines 198-214): accepted with a task
id; HTTP 429 with body code 1102 (insufficient balance); any other
unsuccessful status raised by `raise_for_status`; or a connection/timeout
error. -/
inductive SubmitOutcome where
  | accepted (taskId : String)
  | insufficientBalance
  | httpStatusError
  | netError
  deriving Repr, DecidableEq

/-- The exceptions `generate_video_clip` can let escape: the builtin
`TimeoutError` raised after the poll loop (line 263) and the
`RuntimeError` for an explicit vendor `failed` status (line 259).  Neither
is an `httpx` error, so neither is caught by the two `except` clauses
(lines 268-289) that fall back to the mock clip. -/
inductive GenError where
  | timeout
  | vendorFailed (msg : String)
  deriving Repr, DecidableEq

/-- The poll loop (lines 217-261): up to `fuel` remaining iterations of
`for attempt in range(MAX_POLL_ATTEMPTS)`.  A `succeed`/`completed` status
returns the vendor clip; `failed` raises `RuntimeError`; an HTTP error
during the poll propagates to the outer handlers, which substitute the
mock clip; any other status continues.  When the range is exhausted,
`TimeoutError` is raised (line 263). -/
def poll_clip_loop (poll : Nat → PollOutcome) (mock : VideoClip)
    (videoKey : String) (klingDuration : Int) :
    Nat → Nat → Except GenError VideoClip
  | _, 0 => .error .timeout
  | attempt, fuel + 1 =>
    match poll attempt with
    | .httpError => .ok mock
    | .netError => .ok mock
    | .result st url msg =>
      if st = "succeed" ∨ st = "completed" then .ok ⟨url, videoKey, klingDuration⟩
      else if st = "failed" then .error (.vendorFailed msg)
      else poll_clip_loop poll mock videoKey klingDuration (attempt + 1) fuel

/-- `generate_video_clip` (lines 101-289).  Credentials absent: return the
mock clip immediately (lines 117-120).  Otherwise submit (the
image-reference branch only selects the endpoint and request body, and a
failed image fetch degrades to text-to-video, so the submission outcome
parameter absorbs it) and poll.  Insufficient balance and all `httpx`
errors produce the mock clip; vendor `failed` and poll-ceiling exhaustion
escape as `GenError`. -/
def generate_video_clip (settings : Settings) (duration : Int)
    (projectId sceneId : Nat) (uuidHex : String) (submit : SubmitOutcome)
    (poll : Nat → PollOutcome) : Except GenError VideoClip :=
  if settings.klingApiKey = "" ∨ settings.klingSecretKey = "" then
    .ok (mock_video_clip duration projectId sceneId uuidHex)
  else
    let klingDuration : Int := if duration ≤ 7 then 5 else 10
    let videoKey := videoKeyFor projectId sceneId uuidHex
    match submit with
    | .insufficientBalance => .ok (mock_video_clip duration projectId sceneId uuidHex)
    | .httpStatusError => .ok (mock_video_clip duration projectId sceneId uuidHex)
    | .netError => .ok (mock_video_clip duration projectId sceneId uuidHex)
    | .accepted _ =>
      poll_clip_loop poll (mock_video_clip duration projectId sceneId uuidHex)
        videoKey klingDuration 0 MAX_POLL_ATTEMPTS

/-- `_detect_image_mime` (lines 60-74) on the byte values of the image. -/
def detect_image_mime (data : List Nat) : Except String String :=
  if data.take 2 = [0xff, 0xd8] then .ok "image/jpeg"
  else if data.take 8 = [0x89, 0x50, 0x4e, 0x47, 0x0d, 0x0a, 0x1a, 0x0a] then
    .ok "image/png"
  else if data.take 4 = [0x52, 0x49, 0x46, 0x46] ∧
      (data.drop 8).take 4 = [0x57, 0x45, 0x42, 0x50] then
    .ok "image/webp"
  else if (data.drop 4).take 4 ∈
      [[0x66, 0x74, 0x79, 0x70], [0x61, 0x76, 0x69, 0x66], [0x61, 0x76, 0x69, 0x73],
        [0x68, 0x65, 0x69, 0x63], [0x68, 0x65, 0x69, 0x66]] then
    .error "AVIF/HEIF images are not supported by Kling. The browser should have converted it automatically — try re-uploading."
  else .ok "image/jpeg"

/-- Outcome of the submission POST in `submit_clip_from_bytes`. -/
inductive SubmitHttp where
  | success (taskId : String)
  | failure (statusCode : Nat) (bodyText : String)
  deriving Repr, DecidableEq

/-- `submit_clip_from_bytes` (lines 292-362): with credentials absent it
RAISES `RuntimeError` (lines 303-306) instead of substituting a placeholder;
then size check, magic-byte validation, and the POST whose outcome is the
`http` parameter. -/
def submit_clip_from_bytes (settings : Settings) (imageBytes : List Nat)
    (_duration : Int) (http : SubmitHttp) : Except String String :=
  if settings.klingApiKey = "" ∨ settings.klingSecretKey = "" then
    .error "Kling credentials not set. Add KLING_API_KEY and KLING_SECRET_KEY to .env"
  else if 10 * 1024 * 1024 < imageBytes.length then
    .error ("Image is too large (" ++ toString (imageBytes.length / 1024 / 1024) ++
      " MB). Please use an image under 10 MB.")
  else
    match detect_image_mime imageBytes with
    | .error e => .error e
    | .ok _ =>
      match http with
      | .success taskId => .ok taskId
      | .failure code body =>
        .error ("Kling rejected the request (HTTP " ++ toString code ++ "): " ++ body)

/-- `KlingClient._get_credentials` (`app/core/kling.py`, lines 21-28):
raises `RuntimeError` when either environment credential is absent. -/
def kling_client_get_credentials (accessKey secretKey : String) :
    Except String (String × String) :=
  if accessKey = "" ∨ secretKey = "" then
    .error "KLING_ACCESS_KEY and KLING_SECRET_KEY must be set in environment"
  else .ok (accessKey, secretKey)

/-! ## Per-scene batch generation
(`app/phases/storyboard_to_movie/agents/video_generation.py`) -/

/-- `VideoPrompt` row fields read by the batch agent. -/
structure VideoPrompt where
  sceneId : Nat
  prompt : String
  duration : Option Int
  style : String
  deriving Repr, DecidableEq

/-- `GeneratedVideo` row (`app/models/video.py`) fields written by the
batch agent and read by assembly. -/
structure GeneratedVideo where
  sceneId : Nat
  projectId : Nat
  videoUrl : Option String
  videoKey : Option String
  duration : Option Int
  status : String
  errorMessage : Option String
  deriving Repr, DecidableEq

/-- Result of `VideoGenerationAgent.execute`: the returned dict plus the
`GeneratedVideo` records persisted along the way. -/
structure VideoGenResult where
  status : String
  message : String
  videosCreated : Nat
  errors : List String
  records : List GeneratedVideo
  deriving Repr, DecidableEq

/-- The per-scene loop of `VideoGenerationAgent.execute` (lines 41-93).
`promptOf` is the `prompt_by_scene` lookup; `gen` is the outcome of the
awaited `generate_video_clip` call for a scene (its prompt, duration and
storyboard-image reference are fixed per scene, so the outcome is indexed
by the scene id).  Returns `(videos_created, errors, records)`. -/
def video_generation_loop (projectId : Nat) (promptOf : Nat → Option VideoPrompt)
    (gen : Nat → Except String VideoClip) :
    List Scene → Nat × List String × List GeneratedVideo
  | [] => (0, [], [])
  | s :: rest =>
    match promptOf s.id with
    | none =>
      let r := video_generation_loop projectId promptOf gen rest
      (r.1,
        ("Scene " ++ toString s.sceneNumber ++ ": no video prompt — run /prompts first") :: r.2.1,
        r.2.2)
    | some _ =>
      match gen s.id with
      | .ok clip =>
        let r := video_generation_loop projectId promptOf gen rest
        (r.1 + 1, r.2.1,
          ⟨s.id, projectId, some clip.videoUrl, some clip.videoKey,
            some clip.duration, "completed", none⟩ :: r.2.2)
      | .error e =>
        let r := video_generation_loop projectId promptOf gen rest
        (r.1,
          ("Scene " ++ toString s.sceneNumber ++ ": " ++ e) :: r.2.1,
          ⟨s.id, projectId, none, none, none, "failed", some e⟩ :: r.2.2)

/-- `VideoGenerationAgent.execute` (lines 17-100): empty scene list is
`"error"`; otherwise the batch status is `"success"` when `errors` is
empty and `"partial"` otherwise — the agent never reports `"error"` for a
non-empty batch, even when every job failed. -/
def video_generation_execute (projectId : Nat) (scenes : List Scene)
    (promptOf : Nat → Option VideoPrompt) (gen : Nat → Except String VideoClip) :
    VideoGenResult :=
  if scenes = [] then ⟨"error", "No scenes found", 0, [], []⟩
  else
    let r := video_generation_loop projectId promptOf gen scenes
    ⟨if r.2.1 = [] then "success" else "partial",
      "Generated " ++ toString r.1 ++ "/" ++ toString scenes.length ++ " video clips",
      r.1, r.2.1, r.2.2⟩

/-- A scene whose generation job did not produce a completed clip: either
it has no `VideoPrompt`, or the `generate_video_clip` call raised. -/
def jobFailed (promptOf : Nat → Option VideoPrompt)
    (gen : Nat → Except String VideoClip) (s : Scene) : Bool :=
  match promptOf s.id with
  | none => true
  | some _ => match gen s.id with | .error _ => true | .ok _ => false

/-! ## Media assembly
(`app/phases/storyboard_to_movie/agents/video_assembly.py` and
`assemble_trailer` in `video_generator.py`) -/

/-- `AssembledTrailer` dataclass (lines 38-42 of `video_generator.py`). -/
structure AssembledTrailer where
  movieUrl : String
  movieKey : String
  totalDuration : Int
  deriving Repr, DecidableEq

/-- `FinalMovie` row (`app/models/final_movie.py`) fields written by the
two assembly paths. -/
structure FinalMovie where
  projectId : Nat
  movieUrl : String
  movieKey : String
  duration : Int
  status : String
  deriving Repr, DecidableEq

/-- Python `int()` on a rational: truncation toward zero, which is exactly
the rounding of `Int` division of the numerator by the denominator.  The
only transition duration in use, the default half second, is exact in
binary floating point, as is its product with a small integer, so rational
arithmetic models the Python computation exactly. -/
def pyInt (q : ℚ) : Int := q.num / (q.den : Int)

/-- `assemble_trailer` (lines 407-436 of `video_generator.py`): total
duration is the SUM OF CLIP DURATIONS MINUS `int(transition_duration * (len(clips) - 1))`
when there is more than one clip; the URL is the first clip and `movieId`
stands for the fresh `uuid4().hex[:8]`. -/
def assemble_trailer (clips : List VideoClip) (projectId : Nat)
    (transitionDuration : ℚ) (movieId : String) : AssembledTrailer :=
  let movieKey := "projects/" ++ toString projectId ++ "/trailers/trailer-" ++
    movieId ++ ".mp4"
  let total : Int := (clips.map VideoClip.duration).sum
  let total : Int :=
    if 1 < clips.length then
      total - pyInt (transitionDuration * ((clips.length : ℚ) - 1))
    else total
  let trailerUrl := match clips with | [] => "" | c :: _ => c.videoUrl
  ⟨trailerUrl, movieKey, total⟩

/-- The `FinalMovie` record persisted by `generate_trailer`
(`storyboard_to_movie/service.py`, lines 206-214): its `duration` is the
`totalDuration` of the assembled trailer. -/
def trailer_final_movie (projectId : Nat) (t : AssembledTrailer) : FinalMovie :=
  ⟨projectId, t.movieUrl, t.movieKey, t.totalDuration, "completed"⟩

/-- `video_by_scene = {v.sceneId: v for v in <completed videos>}` (lines
76-82 of `video_assembly.py`): a Python dict comprehension keeps the LAST
record with a given scene id. -/
def video_by_scene_lookup (videos : List GeneratedVideo) (sid : Nat) :
    Option GeneratedVideo :=
  ((videos.filter (fun v => v.status == "completed")).reverse).find?
    (fun v => v.sceneId == sid)

/-- Step 7 of `VideoAssemblyAgent.execute` (lines 186-191): the total
duration summed from the persisted records — `video.duration or 0` over
every scene that has a completed video record, whether or not its clip
downloaded. -/
def clip_durations_sum (scenes : List Scene) (videos : List GeneratedVideo) : Int :=
  (scenes.map (fun s =>
    match video_by_scene_lookup videos s.id with
    | some v => v.duration.getD 0
    | none => 0)).sum

/-- A scene that contributes a clip to the concatenation (lines 94-151):
it has a completed video record with a truthy URL and its download
succeeded (`dl`).  A TTS/merge failure still keeps the video-only clip. -/
def sceneClipUsable (videos : List GeneratedVideo) (dl : Nat → Bool) (s : Scene) :
    Bool :=
  match video_by_scene_lookup videos s.id with
  | none => false
  | some v =>
    (match v.videoUrl with | none => false | some u => !(u == "")) && dl s.id

/-- `VideoAssemblyAgent.execute` (lines 65-228): guard on scenes, on the
completed-video map, and on the concatenation list; on success persist a
`FinalMovie` whose `duration` is `clip_durations_sum` — a value computed
from the database records, not measured from the concatenated file.
`movieUrl` is the upload (or local fallback) result. -/
def video_assembly_execute (projectId : Nat) (scenes : List Scene)
    (videos : List GeneratedVideo) (dl : Nat → Bool) (movieUrl : String) :
    Except String FinalMovie :=
  if scenes = [] then .error "No scenes found"
  else if videos.filter (fun v => v.status == "completed") = [] then
    .error "No completed videos found — run /generate first"
  else if scenes.countP (sceneClipUsable videos dl) = 0 then
    .error "All clips failed to download — nothing to assemble"
  else
    .ok ⟨projectId, movieUrl,
      "projects/" ++ toString projectId ++ "/final_movie.mp4",
      clip_durations_sum scenes videos, "completed"⟩

/-! ## Phase 1 script analysis
(`app/phases/script_to_trailer/service.py`, `analyze_script`, lines 93-194) -/

/-- `CharacterOutput` of the structured LLM schema. -/
structure CharacterOut where
  name : String
  description : String
  visualDescription : String
  deriving Repr, DecidableEq

/-- `SettingOutput` of the structured LLM schema. -/
structure SettingOut where
  name : String
  description : String
  visualDescription : String
  deriving Repr, DecidableEq

/-- `SceneOutput` of the structured LLM schema. -/
structure SceneOut where
  sceneNumber : Int
  title : String
  description : String
  setting : String
  characters : List String
  duration : Int
  deriving Repr, DecidableEq

/-- `ScriptAnalysisOutput` of the structured LLM schema. -/
structure ScriptAnalysisOutput where
  script : String
  characters : List CharacterOut
  settings : List SettingOut
  scenes : List SceneOut
  deriving Repr, DecidableEq

/-- `Character` row (`app/models/character.py`) fields written by phase 1. -/
structure Character where
  projectId : Nat
  name : String
  description : String
  visualDescription : String
  deriving Repr, DecidableEq

/-- `Setting` row (`app/models/setting.py`) fields written by phase 1. -/
structure Setting where
  projectId : Nat
  name : String
  description : String
  visualDescription : String
  deriving Repr, DecidableEq

def characterFromOutput (pid : Nat) (c : CharacterOut) : Character :=
  ⟨pid, c.name, c.description, c.visualDescription⟩

def settingFromOutput (pid : Nat) (s : SettingOut) : Setting :=
  ⟨pid, s.name, s.description, s.visualDescription⟩

def sceneFromOutput (pid : Nat) (o : SceneOut) : Scene :=
  sceneFromAnalysis pid o.sceneNumber o.title o.description o.setting
    o.characters o.duration

/-- The database state a phase-1 run reads and writes: the project row and
the record tables scoped to it. -/
structure Phase1DB where
  project : Project
  characters : List Character
  settings : List Setting
  scenes : List Scene
  deriving Repr, DecidableEq

/-- Success path of `analyze_script` (steps 4-8, lines 121-186): the
enriched script replaces `scriptContent`, and the characters, settings and
scenes of the analysis are ADDED to the tables — there is no delete or
upsert, so existing records survive. -/
def analyze_script_success (st : Phase1DB) (analysis : ScriptAnalysisOutput) :
    Phase1DB :=
  { project := { st.project with
      scriptContent := analysis.script, status := "parsed", progress := 100,
      errorMessage := none }
    characters := st.characters ++
      analysis.characters.map (characterFromOutput st.project.id)
    settings := st.settings ++
      analysis.settings.map (settingFromOutput st.project.id)
    scenes := st.scenes ++ analysis.scenes.map (sceneFromOutput st.project.id) }

/-- `analyze_script` over the outcome of the structured LLM call: success
stores the records; failure leaves the tables untouched, records
`status := "failed"`, `progress := 0` and the message, and re-raises. -/
def analyze_script_model (st : Phase1DB)
    (llm : Except String ScriptAnalysisOutput) : Phase1DB × Except String Unit :=
  match llm with
  | .ok a => (analyze_script_success st a, .ok ())
  | .error e =>
    ({ st with project := { st.project with
        status := "failed", progress := 0, errorMessage := some e } },
      .error e)

/-! ## Concrete fixtures used in evaluations -/

/-- Three scenes with ids 1, 2, 3. -/
def demoScenes : List Scene := [mkScene 1 1, mkScene 2 2, mkScene 3 3]

/-- Completed clip records for the three scenes with durations 5, 10, 10. -/
def demoVideos : List GeneratedVideo :=
  [⟨1, 1, some "u", some "k", some 5, "completed", none⟩,
    ⟨2, 1, some "u", some "k", some 10, "completed", none⟩,
    ⟨3, 1, some "u", some "k", some 10, "completed", none⟩]

/-- Three clips with durations 5, 10, 10. -/
def demoClips : List VideoClip := [⟨"u", "k", 5⟩, ⟨"u", "k", 10⟩, ⟨"u", "k", 10⟩]

/-! ## Theorems -/

/-- C1 (counterexample): at the pipeline boundary, an exception raised by
the body is caught and the failure is recorded, but the handler of
`_run_pipeline` returns normally — the result component is `Except.ok ()`,
not a re-raised error, so the claim that the exception is re-raised to the
caller is false. -/
theorem run_pipeline_task_swallows_exception :
    (run_pipeline_task 1 (.error ("boom", [⟨1, "T", "s", "draft", 0, none⟩]))).2
      = .ok () ∧
    (run_pipeline_task 1 (.error ("boom", [⟨1, "T", "s", "draft", 0, none⟩]))).1
      = [⟨1, "T", "s", "failed", 0, some "boom"⟩] :=
  ⟨rfl, rfl⟩

/-- C1 (amended): an exception reaching the pipeline boundary is caught
and recorded as `status := "failed"` with the exception message — the
failure is persisted, not silently dropped — but `_run_pipeline` then
returns normally instead of re-raising, because it runs as a detached
background task; it is the phase services below (`analyze_script`,
`generate_trailer`) whose handlers record the failure and re-raise. -/
theorem pipeline_failure_recorded_not_reraised (p : Project) (msg : String) :
    run_pipeline_task p.id (.error (msg, [p])) =
      ([{ p with status := "failed", errorMessage := some msg }], .ok ()) ∧
    phase_failure_handler p msg =
      ({ p with status := "failed", progress := 0, errorMessage := some msg },
        .error msg) := by
  refine ⟨?_, rfl⟩
  simp [run_pipeline_task, setFailed]

/-- C2: with credentials configured and the submission accepted, a poll
stream that only ever reports non-terminal statuses makes the poll loop
exhaust `MAX_POLL_ATTEMPTS` and `generate_video_clip` surfaces the timeout
error — it does not return the placeholder clip in this situation. -/
theorem generate_video_clip_timeout_on_pending (settings : Settings)
    (duration : Int) (pid sid : Nat) (uuidHex taskId : String)
    (poll : Nat → PollOutcome)
    (hkey : settings.klingApiKey ≠ "") (hsecret : settings.klingSecretKey ≠ "")
    (hpoll : ∀ i, ∃ st url msg, poll i = .result st url msg ∧
      st ≠ "succeed" ∧ st ≠ "completed" ∧ st ≠ "failed") :
    generate_video_clip settings duration pid sid uuidHex (.accepted taskId) poll
      = .error .timeout := by
  have loop : ∀ fuel attempt mock key kd,
      poll_clip_loop poll mock key kd attempt fuel = .error .timeout := by
    intro fuel
    induction fuel with
    | zero => intro attempt mock key kd; rfl
    | succ n ih =>
      intro attempt mock key kd
      obtain ⟨st, url, msg, heq, h1, h2, h3⟩ := hpoll attempt
      unfold poll_clip_loop
      rw [heq]
      simp [h1, h2, h3, ih]
  unfold generate_video_clip
  rw [if_neg (by simp [hkey, hsecret])]
  exact loop MAX_POLL_ATTEMPTS 0 _ _ _

/-- C2 (witness): a stream that always answers `processing` yields the
timeout error. -/
theorem generate_video_clip_timeout_on_pending_witness :
    generate_video_clip ⟨"key", "secret"⟩ 5 1 2 "u" (.accepted "t")
        (fun _ => .result "processing" "" "") = .error .timeout :=
  generate_video_clip_timeout_on_pending ⟨"key", "secret"⟩ 5 1 2 "u" "t" _
    (by decide) (by decide)
    (fun _ => ⟨"processing", "", "", rfl, by decide, by decide, by decide⟩)

/-- C3: evaluation at a failing input.  With scenes numbered 1 and 2 (in
the orders script analysis wrote) and the narrative service returning
selected numbers `[99, 2]` — the unmatched 99 is tolerated by design —
the final orders are `[2, 2]`: not pairwise distinct and not the
contiguous sequence 1..2, contradicting the claimed invariant and the
reorder comment in the source. -/
theorem trailer_selection_orders_not_contiguous :
    ((select_trailer_scenes [mkScene 1 0, mkScene 2 1] [99, 2]).map Scene.order
        = [2, 2]) ∧
    ¬ ((select_trailer_scenes [mkScene 1 0, mkScene 2 1] [99, 2]).map
        Scene.order).Nodup ∧
    ¬ ((select_trailer_scenes [mkScene 1 0, mkScene 2 1] [99, 2]).map
        Scene.order).Perm [1, 2] := by
  refine ⟨by decide, by decide, by decide⟩

/-- C4 (counterexample): a batch in which every job fails — here the only
scene has a prompt but its generation call raises — is reported with
status `"partial"`, not `"error"`, refuting the claimed all-failed case. -/
theorem video_generation_all_failed_reports_partial :
    (video_generation_execute 1 [mkScene 1 1]
        (fun _ => some ⟨1, "p", some 5, ""⟩) (fun _ => .error "boom")).status
      = "partial" ∧
    (video_generation_execute 1 [mkScene 1 1]
        (fun _ => some ⟨1, "p", some 5, ""⟩) (fun _ => .error "boom")).videosCreated
      = 0 :=
  ⟨rfl, rfl⟩

/-- Errors collected by the batch loop, one per scene whose job failed. -/
theorem video_generation_loop_errors_count (pid : Nat)
    (promptOf : Nat → Option VideoPrompt) (gen : Nat → Except String VideoClip) :
    ∀ scenes : List Scene,
      (video_generation_loop pid promptOf gen scenes).2.1.length =
        scenes.countP (jobFailed promptOf gen) := by
  intro scenes
  induction scenes with
  | nil => rfl
  | cons s rest ih =>
    cases hp : promptOf s.id with
    | none =>
      simp [video_generation_loop, hp, List.countP_cons, jobFailed, ih,
        Nat.add_comm]
    | some vp =>
      cases hg : gen s.id with
      | ok c =>
        simp [video_generation_loop, hp, hg, List.countP_cons, jobFailed, ih]
      | error e =>
        simp [video_generation_loop, hp, hg, List.countP_cons, jobFailed, ih,
          Nat.add_comm]

/-- C4 (amended): for a non-empty batch the reported status is
`"success"` exactly when no per-scene job failed, and `"partial"` exactly
when at least one failed — including when all of them failed; `"error"` is
reported only for a project with no scenes. -/
theorem video_generation_status_spec (pid : Nat) (scenes : List Scene)
    (promptOf : Nat → Option VideoPrompt) (gen : Nat → Except String VideoClip)
    (hne : scenes ≠ []) :
    ((video_generation_execute pid scenes promptOf gen).status = "success" ↔
      scenes.countP (jobFailed promptOf gen) = 0) ∧
    ((video_generation_execute pid scenes promptOf gen).status = "partial" ↔
      0 < scenes.countP (jobFailed promptOf gen)) := by
  have hcount := video_generation_loop_errors_count pid promptOf gen scenes
  unfold video_generation_execute
  rw [if_neg hne]
  rcases he : (video_generation_loop pid promptOf gen scenes).2.1 with _ | ⟨e, es⟩
  · rw [he] at hcount
    simp [he, ← hcount]
  · rw [he] at hcount
    simp [he, ← hcount]

/-- C4 (witness): a batch of one succeeding job reports `"success"`. -/
theorem video_generation_status_spec_witness :
    (video_generation_execute 1 [mkScene 2 1]
        (fun _ => some ⟨2, "p", some 5, ""⟩)
        (fun _ => .ok ⟨"u", "k", 5⟩)).status = "success" :=
  ((video_generation_status_spec 1 [mkScene 2 1]
      (fun _ => some ⟨2, "p", some 5, ""⟩)
      (fun _ => .ok ⟨"u", "k", 5⟩) (by decide)).1).mpr (by decide)

/-- C5 (counterexample): with credentials absent, the submit entry point
`submit_clip_from_bytes` raises `RuntimeError` instead of returning a
placeholder clip, and `KlingClient._get_credentials` raises as well, so
the claim does not hold of every submit+poll entry point. -/
theorem submit_clip_from_bytes_raises_without_credentials :
    submit_clip_from_bytes ⟨"", ""⟩ [0xff, 0xd8] 5 (.success "t") =
      .error "Kling credentials not set. Add KLING_API_KEY and KLING_SECRET_KEY to .env" ∧
    kling_client_get_credentials "" "" =
      .error "KLING_ACCESS_KEY and KLING_SECRET_KEY must be set in environment" :=
  ⟨rfl, rfl⟩

/-- C5 (amended): the one-call submit-and-poll client
`generate_video_clip` does return the deterministic placeholder clip
immediately when either credential is absent, for every duration and every
outcome of the vendor calls — on this entry point nothing is raised and no
poll is awaited. -/
theorem generate_video_clip_mock_without_credentials (settings : Settings)
    (duration : Int) (pid sid : Nat) (uuidHex : String) (submit : SubmitOutcome)
    (poll : Nat → PollOutcome)
    (h : settings.klingApiKey = "" ∨ settings.klingSecretKey = "") :
    generate_video_clip settings duration pid sid uuidHex submit poll =
      .ok (mock_video_clip duration pid sid uuidHex) := by
  unfold generate_video_clip
  rw [if_pos h]

/-- C5 (witness): with an absent API key the mock clip is returned. -/
theorem generate_video_clip_mock_without_credentials_witness :
    generate_video_clip ⟨"", "secret"⟩ 7 1 2 "u" (.accepted "t")
        (fun _ => .result "processing" "" "") = .ok (mock_video_clip 7 1 2 "u") :=
  generate_video_clip_mock_without_credentials ⟨"", "secret"⟩ 7 1 2 "u"
    (.accepted "t") (fun _ => .result "processing" "" "") (Or.inl rfl)

/-- C6 (counterexample): on the `generate_trailer` path, three clips of 5,
10 and 10 seconds persist a FinalMovie of duration 24, not 25:
`assemble_trailer` subtracts the transition allowance
`int(0.5 * (len(clips) - 1))` from the sum of the per-clip durations. -/
theorem trailer_final_movie_duration_not_sum :
    (trailer_final_movie 1 (assemble_trailer demoClips 1 (1 / 2) "m")).duration
      = 24 ∧
    (demoClips.map VideoClip.duration).sum = 25 := by
  constructor
  · simp only [trailer_final_movie, assemble_trailer, demoClips]
    norm_num [pyInt]
  · decide

/-- C6 (amended): the `VideoAssemblyAgent` path persists a FinalMovie
whose duration is the sum of the persisted per-clip durations over the
scenes that have a completed clip record (so durations 5, 10, 10 give 25),
while the `generate_trailer` path persists that sum minus the transition
allowance `int(transition * (len(clips) - 1))` (so 5, 10, 10 give 24). -/
theorem final_media_duration_spec :
    (∀ (pid : Nat) (scenes : List Scene) (videos : List GeneratedVideo)
        (dl : Nat → Bool) (url : String) (fm : FinalMovie),
      video_assembly_execute pid scenes videos dl url = .ok fm →
        fm.duration = clip_durations_sum scenes videos) ∧
    (∀ (clips : List VideoClip) (pid : Nat) (q : ℚ) (mid : String),
      1 < clips.length →
        (trailer_final_movie pid (assemble_trailer clips pid q mid)).duration =
          (clips.map VideoClip.duration).sum -
            pyInt (q * ((clips.length : ℚ) - 1))) := by
  constructor
  · intro pid scenes videos dl url fm h
    unfold video_assembly_execute at h
    split_ifs at h
    injection h with h
    rw [← h]
  · intro clips pid q mid h
    simp [trailer_final_movie, assemble_trailer, if_pos h]

/-- C6 (witness): the agent path yields 25 for durations 5, 10, 10 and the
trailer path yields the sum minus the transition allowance. -/
theorem final_media_duration_spec_witness :
    video_assembly_execute 1 demoScenes demoVideos (fun _ => true) "u" =
      .ok ⟨1, "u", "projects/1/final_movie.mp4", 25, "completed"⟩ ∧
    (25 : Int) = clip_durations_sum demoScenes demoVideos ∧
    (trailer_final_movie 1 (assemble_trailer demoClips 1 (1 / 2) "m")).duration =
      (demoClips.map VideoClip.duration).sum -
        pyInt ((1 / 2) * ((demoClips.length : ℚ) - 1)) := by
  refine ⟨rfl, ?_, ?_⟩
  · exact final_media_duration_spec.1 1 demoScenes demoVideos (fun _ => true) "u"
      ⟨1, "u", "projects/1/final_movie.mp4", 25, "completed"⟩ rfl
  · exact final_media_duration_spec.2 demoClips 1 (1 / 2) "m" (by decide)

/-- C7 (counterexample): a pipeline run on a `parsed` project first writes
`generating_videos` and then `completed`: the transition from `parsed` to
`generating_videos` is not an edge of the claimed phase graph (which
demands `extracting_frames` next), so the run skips the claimed
predecessor phases. -/
theorem run_pipeline_statuses_skip_claimed_graph :
    run_pipeline_statuses "parsed" true true = ["generating_videos", "completed"] ∧
    claimedEdge "parsed" "generating_videos" = false ∧
    chainOk claimedEdge "parsed" (run_pipeline_statuses "parsed" true true)
      = false := by
  refine ⟨rfl, rfl, rfl⟩

/-- C7 (amended): the statuses the pipeline actually writes follow the
implemented graph: `draft`/`parsing`/`failed` re-enter `parsing`, then
`parsed`, then `generating_videos` (also re-entered directly from
`completed`), then `completed`, with `failed` reachable from anywhere (the
claimed intermediate states `extracting_frames`, `prompting` and
`assembling` are never written by the implemented pipeline). -/
theorem run_pipeline_statuses_follow_pipeline_graph (current : String)
    (phase1ok phase3ok : Bool) :
    chainOk pipelineEdge current (run_pipeline_statuses current phase1ok phase3ok)
      = true := by
  by_cases h1 : (current == "draft" || current == "parsing" || current == "failed")
    = true
  · have h1s : (current = "draft" ∨ current = "parsing") ∨ current = "failed" := by
      simpa using h1
    rcases h1s with (h | h) | h <;> subst h <;> cases phase1ok <;> cases phase3ok <;>
      decide
  · by_cases h2 : (current == "parsed" || current == "completed") = true
    · have h2s : current = "parsed" ∨ current = "completed" := by simpa using h2
      rcases h2s with h | h <;> subst h <;> cases phase1ok <;> cases phase3ok <;>
        decide
    · unfold run_pipeline_statuses
      rw [if_neg h1, if_neg h2]
      simp [chainOk, pipelineEdge]

/-- C8: re-running script analysis on an already-parsed project appends:
after two successful runs the scene, character and setting tables hold the
initial records followed by the records of run 1 and then those of run 2 —
nothing is replaced or deleted. -/
theorem analyze_script_rerun_appends (st : Phase1DB)
    (a1 a2 : ScriptAnalysisOutput) :
    ((analyze_script_model (analyze_script_model st (.ok a1)).1 (.ok a2)).1).scenes
        = st.scenes ++ a1.scenes.map (sceneFromOutput st.project.id) ++
          a2.scenes.map (sceneFromOutput st.project.id) ∧
    ((analyze_script_model (analyze_script_model st (.ok a1)).1 (.ok a2)).1).characters
        = st.characters ++ a1.characters.map (characterFromOutput st.project.id) ++
          a2.characters.map (characterFromOutput st.project.id) ∧
    ((analyze_script_model (analyze_script_model st (.ok a1)).1 (.ok a2)).1).settings
        = st.settings ++ a1.settings.map (settingFromOutput st.project.id) ++
          a2.settings.map (settingFromOutput st.project.id) := by
  refine ⟨?_, ?_, ?_⟩ <;>
    simp [analyze_script_model, analyze_script_success, List.append_assoc]

/-- C9: evaluation at a failing input.  With scenes numbered 1, 2, 3 and
the narrative service returning `[99, 3]`, the unmatched 99 is silently
dropped and all scenes remain, but the matched scene 3 receives order 2
while the non-selected scene 1 also receives order 2 — the selected scene
is not front-loaded below every non-selected scene, contradicting the
claim and the reorder comment in the source. -/
theorem trailer_selection_not_front_loaded :
    ((select_trailer_scenes [mkScene 1 0, mkScene 2 1, mkScene 3 2] [99, 3]).map
        Scene.order = [2, 3, 2]) ∧
    ¬ frontLoaded
        (select_trailer_scenes [mkScene 1 0, mkScene 2 1, mkScene 3 2] [99, 3])
        [99, 3] ∧
    (select_trailer_scenes [mkScene 1 0, mkScene 2 1, mkScene 3 2] [99, 3]).length
      = 3 := by
  refine ⟨by decide, by decide, by decide⟩

/-- C10: querying workflow status is a pure read that never raises: a
missing project yields status `not_found`, progress 0 and the non-empty
message `Project not found`; an existing project yields exactly its
persisted status, progress and error message; the database is returned
unchanged. -/
theorem get_workflow_status_spec (db : List Project) (pid : Nat) :
    (get_workflow_status db pid).1 = db ∧
    (findProject db pid = none →
      (get_workflow_status db pid).2 =
        ⟨pid, "not_found", 0, none, some "Project not found"⟩) ∧
    (∀ p, findProject db pid = some p →
      (get_workflow_status db pid).2 =
        ⟨p.id, p.status, p.progress, none, p.errorMessage⟩) := by
  unfold get_workflow_status
  cases h : findProject db pid with
  | none =>
    exact ⟨rfl, fun _ => rfl, fun p hp => Option.noConfusion hp⟩
  | some p =>
    refine ⟨rfl, fun hn => Option.noConfusion hn, fun q hq => ?_⟩
    cases hq
    rfl

/-- C10 (witness): the empty database yields the `not_found` response, and
a database with one project yields its persisted fields. -/
theorem get_workflow_status_spec_witness :
    (get_workflow_status [] 7).2 =
      ⟨7, "not_found", 0, none, some "Project not found"⟩ ∧
    (get_workflow_status [⟨3, "T", "s", "parsed", 40, some "e"⟩] 3).2 =
      ⟨3, "parsed", 40, none, some "e"⟩ := by
  constructor
  · exact (get_workflow_status_spec [] 7).2.1 rfl
  · exact (get_workflow_status_spec [⟨3, "T", "s", "parsed", 40, some "e"⟩] 3).2.2
      ⟨3, "T", "s", "parsed", 40, some "e"⟩ rfl

end ContentCreator
